import Mathlib

/-!
Verification of the Tcl bootstrap material: `tclAppInit.c` (the default
`main` program and `Tcl_AppInit` application-initialization callback) and
`tclPlatDecls.h` (the platform-specific stub dispatch table).

The external Tcl library routines (`Tcl_Init`, the test-package init
routines, `Tcl_SetVar`, `Tcl_StaticPackage`, `Tcl_Main`) are not part of
this material; they are modelled as an oracle (`InitResults`, `MainEnv`)
supplying the integer status each external call returns.  The embedded
functions produce, alongside the C return value, a trace of the external
calls they perform, in order, so that claims about call order, skipped
calls and side effects can be stated.
-/

/-- `TCL_OK`, the Tcl success completion code (0). -/
def TCL_OK : Nat := 0

/-- `TCL_ERROR`, the Tcl failure completion code (1). -/
def TCL_ERROR : Nat := 1

/-- One observable external call made by `Tcl_AppInit`:
a package-initialization call such as `Tcl_Init(interp)`, a
`Tcl_StaticPackage` registration, or a `Tcl_SetVar` assignment. -/
inductive Event : Type where
  | callInit (name : String)
  | staticPackage (pkg : String)
  | setVar (name : String) (value : String)
deriving DecidableEq, Repr

/-- The preprocessor configuration of `tclAppInit.c`: whether `TCL_TEST`,
`TCL_XT_TEST` and `DJGPP` are defined. -/
structure Config : Type where
  tcl_test : Bool
  tcl_xt_test : Bool
  djgpp : Bool
deriving DecidableEq, Repr

/-- The oracle for the external library calls: the integer status each
package-initialization routine returns for the given interpreter, and the
status `Tcl_SetVar` returns (the C code discards the latter). -/
structure InitResults : Type where
  tcl_Init : Nat
  tclxttest_Init : Nat
  tcltest_Init : Nat
  tclObjTest_Init : Nat
  procbodytest_Init : Nat
  tcl_SetVar : Nat
deriving DecidableEq, Repr

/-- The value assigned to `tcl_rcFileName` (lines 162-166):
`~/tclsh.rc` under `DJGPP`, otherwise `~/.tclshrc`. -/
def rcFileName (cfg : Config) : String :=
  if cfg.djgpp then "~/tclsh.rc" else "~/.tclshrc"

/-- Lines 162-168 of `tclAppInit.c`: the `Tcl_SetVar` call on
`tcl_rcFileName` followed by `return TCL_OK;`.  The status `Tcl_SetVar`
returns is discarded by the C code, so it does not appear here. -/
def appInitTail (cfg : Config) (tr : List Event) : Nat × List Event :=
  (TCL_OK, tr ++ [Event.setVar "tcl_rcFileName" (rcFileName cfg)])

/-- Lines 123-135 of `tclAppInit.c`: the rest of the `TCL_TEST` block after
the optional `Tclxttest_Init` step: `Tcltest_Init` with its
`Tcl_StaticPackage` registration, `TclObjTest_Init`, `Procbodytest_Init`
with its registration, each check returning `TCL_ERROR` early on failure. -/
def appInitTestRest (cfg : Config) (env : InitResults) (tr : List Event) :
    Nat × List Event :=
  let tr := tr ++ [Event.callInit "Tcltest_Init"]
  if env.tcltest_Init = TCL_ERROR then (TCL_ERROR, tr) else
  let tr := tr ++ [Event.staticPackage "Tcltest"]
  let tr := tr ++ [Event.callInit "TclObjTest_Init"]
  if env.tclObjTest_Init = TCL_ERROR then (TCL_ERROR, tr) else
  let tr := tr ++ [Event.callInit "Procbodytest_Init"]
  if env.procbodytest_Init = TCL_ERROR then (TCL_ERROR, tr) else
  let tr := tr ++ [Event.staticPackage "procbodytest"]
  appInitTail cfg tr

/-- `Tcl_AppInit` (lines 109-169 of `tclAppInit.c`): calls `Tcl_Init`; on
`TCL_ERROR` returns `TCL_ERROR` at once; under `TCL_TEST` runs the
test-package initializations (under `TCL_XT_TEST` starting with
`Tclxttest_Init`), each aborting with `TCL_ERROR` on failure; finally sets
`tcl_rcFileName` and returns `TCL_OK`.  The result is the C return value
paired with the trace of external calls performed. -/
def Tcl_AppInit (cfg : Config) (env : InitResults) : Nat × List Event :=
  let tr := [Event.callInit "Tcl_Init"]
  if env.tcl_Init = TCL_ERROR then (TCL_ERROR, tr) else
  if cfg.tcl_test then
    if cfg.tcl_xt_test then
      let tr := tr ++ [Event.callInit "Tclxttest_Init"]
      if env.tclxttest_Init = TCL_ERROR then (TCL_ERROR, tr)
      else appInitTestRest cfg env tr
    else appInitTestRest cfg env tr
  else appInitTail cfg tr

/-- The statically known sequence of package-initialization routines
`Tcl_AppInit` runs through for a given build configuration, in source
order: `Tcl_Init`, then under `TCL_TEST` (with `Tclxttest_Init` first
under `TCL_XT_TEST`) `Tcltest_Init`, `TclObjTest_Init`,
`Procbodytest_Init`. -/
def initSeqNames (cfg : Config) : List String :=
  "Tcl_Init" ::
    (if cfg.tcl_test then
      (if cfg.tcl_xt_test then ["Tclxttest_Init"] else []) ++
        ["Tcltest_Init", "TclObjTest_Init", "Procbodytest_Init"]
    else [])

/-- The oracle status of a package-initialization routine, by name. -/
def initResult (env : InitResults) : String → Nat
  | "Tcl_Init" => env.tcl_Init
  | "Tclxttest_Init" => env.tclxttest_Init
  | "Tcltest_Init" => env.tcltest_Init
  | "TclObjTest_Init" => env.tclObjTest_Init
  | "Procbodytest_Init" => env.procbodytest_Init
  | _ => TCL_OK

/-- The package-initialization calls recorded in a trace, in order. -/
def callsOf (tr : List Event) : List String :=
  tr.filterMap (fun e =>
    match e with
    | Event.callInit n => some n
    | _ => none)

/-- Whether an event is a `Tcl_SetVar` call. -/
def isSetVar : Event → Bool
  | Event.setVar _ _ => true
  | _ => false

/-- The fixed, statically known step sequence of `Tcl_AppInit` described by
the specification: each entry is a package-initialization routine paired
with the `Tcl_StaticPackage` registrations performed right after it
succeeds.  `Tcl_Init` carries none; under `TCL_TEST`, `Tcltest_Init`
carries the `"Tcltest"` registration and `Procbodytest_Init` the
`"procbodytest"` one. -/
def stepsFor (cfg : Config) : List (String × List Event) :=
  ("Tcl_Init", []) ::
    (if cfg.tcl_test then
      (if cfg.tcl_xt_test then [("Tclxttest_Init", [])] else []) ++
        [("Tcltest_Init", [Event.staticPackage "Tcltest"]),
         ("TclObjTest_Init", []),
         ("Procbodytest_Init", [Event.staticPackage "procbodytest"])]
    else [])

/-- Run a step sequence against the oracle: each routine is called in
order; on the first `TCL_ERROR` the run stops, the failing call being the
last event and the registrations of the failing step never emitted.
Returns the trace and whether every step succeeded. -/
def runSteps (env : InitResults) : List (String × List Event) → List Event × Bool
  | [] => ([], true)
  | (n, post) :: rest =>
    if initResult env n = TCL_ERROR then ([Event.callInit n], false)
    else
      let r := runSteps env rest
      (Event.callInit n :: (post ++ r.1), r.2)

/-- The event sequence the specification describes for `Tcl_AppInit`: the
fixed step list run in order, short-circuiting at the first failure, and,
only when every step succeeded, the final `tcl_rcFileName` assignment. -/
def claimedTrace (cfg : Config) (env : InitResults) : List Event :=
  let r := runSteps env (stepsFor cfg)
  r.1 ++ (if r.2 then [Event.setVar "tcl_rcFileName" (rcFileName cfg)] else [])

/-- One observable external call made by `main`: the `XtToolkitInitialize`
call (under `TCL_XT_TEST`), the `TCL_LOCAL_MAIN_HOOK` call with the
argument vector it is handed, or the `Tcl_Main` call with the arguments
and application-init callback name it is handed. -/
inductive MainEvent : Type where
  | xtToolkitInitCall
  | mainHookCall (argc : Nat) (argv : List String)
  | tclMainCall (argc : Nat) (argv : List String) (appInit : String)
deriving DecidableEq, Repr

/-- The preprocessor configuration of `main` in `tclAppInit.c`: whether
`TCL_XT_TEST` and `TCL_LOCAL_MAIN_HOOK` are defined, and the name
`TCL_LOCAL_APPINIT` is defined to (none means undefined, in which case
line 63 defines it to `Tcl_AppInit`). -/
structure MainConfig : Type where
  tcl_xt_test : Bool
  tcl_local_main_hook : Bool
  tcl_local_appinit : Option String
deriving DecidableEq, Repr

/-- The oracle for the external calls `main` makes: the effect of the
optional `TCL_LOCAL_MAIN_HOOK` on `(argc, argv)` (it receives them by
address and may rewrite them), and whether `Tcl_Main` returns control to
`main` at all (under normal operation it never does). -/
structure MainEnv : Type where
  hook : Nat → List String → Nat × List String
  tclMainReturns : Bool

/-- `main` (lines 50-88 of `tclAppInit.c`): under `TCL_XT_TEST` calls
`XtToolkitInitialize()`; under `TCL_LOCAL_MAIN_HOOK` lets the hook rewrite
`argc`/`argv`; then calls `Tcl_Main(argc, argv, TCL_LOCAL_APPINIT)` and,
only if `Tcl_Main` ever returns, reaches `return 0`.  The result is
`some 0` when control reaches the final return, `none` when `Tcl_Main`
never returns, paired with the trace of external calls. -/
def TclShell.main (cfg : MainConfig) (env : MainEnv) (argc : Nat)
    (argv : List String) : Option Nat × List MainEvent :=
  let tr : List MainEvent :=
    if cfg.tcl_xt_test then [MainEvent.xtToolkitInitCall] else []
  let args :=
    if cfg.tcl_local_main_hook then env.hook argc argv else (argc, argv)
  let tr := tr ++
    (if cfg.tcl_local_main_hook then [MainEvent.mainHookCall argc argv] else [])
  let appInit := cfg.tcl_local_appinit.getD "Tcl_AppInit"
  let tr := tr ++ [MainEvent.tclMainCall args.1 args.2 appInit]
  if env.tclMainReturns then (some 0, tr) else (none, tr)

/-- Abstract value of a C `char *` string argument (`CONST char *str`,
`CONST char *bundleName`, `char *libraryPath`). -/
structure CStr : Type where
  ref : Nat
deriving DecidableEq, Repr

/-- Abstract value of a C `TCHAR *` string. -/
structure TCharStr : Type where
  ref : Nat
deriving DecidableEq, Repr

/-- Abstract value of a C `Tcl_DString *` argument. -/
structure DStringRef : Type where
  ref : Nat
deriving DecidableEq, Repr

/-- Abstract value of a C `Tcl_Interp *` argument. -/
structure InterpRef : Type where
  ref : Nat
deriving DecidableEq, Repr

/-- Signature of `Tcl_WinUtfToTChar` (ordinal 0 on Windows):
`TCHAR *Tcl_WinUtfToTChar(CONST char *str, int len, Tcl_DString *dsPtr)`. -/
def WinUtfToTCharSig : Type := CStr → Int → DStringRef → TCharStr

/-- Signature of `Tcl_WinTCharToUtf` (ordinal 1 on Windows):
`char *Tcl_WinTCharToUtf(CONST TCHAR *str, int len, Tcl_DString *dsPtr)`. -/
def WinTCharToUtfSig : Type := TCharStr → Int → DStringRef → CStr

/-- Signature of `Tcl_MacOSXOpenBundleResources` (ordinal 0 on macOS). -/
def MacOpenBundleSig : Type := InterpRef → CStr → Int → Int → CStr → Int

/-- Signature of `Tcl_MacOSXOpenVersionedBundleResources` (ordinal 1 on
macOS). -/
def MacOpenVersionedBundleSig : Type :=
  InterpRef → CStr → CStr → Int → Int → CStr → Int

/-- The `TclPlatStubs` struct as preprocessed for Windows
(`__WIN32__`/`__CYGWIN__`): the `magic` field, the `hooks` pointer, and a
function pointer (possibly null, hence `Option`) for each of the two
ordinals. -/
structure TclPlatStubsWin : Type where
  magic : Int
  hooks : Option Nat
  tcl_WinUtfToTChar : Option WinUtfToTCharSig
  tcl_WinTCharToUtf : Option WinTCharToUtfSig

/-- The `TclPlatStubs` struct as preprocessed for macOS (`MAC_OSX_TCL`):
the `magic` field, the `hooks` pointer, and a function pointer (possibly
null) for each of the two ordinals. -/
structure TclPlatStubsMac : Type where
  magic : Int
  hooks : Option Nat
  tcl_MacOSXOpenBundleResources : Option MacOpenBundleSig
  tcl_MacOSXOpenVersionedBundleResources : Option MacOpenVersionedBundleSig

/-- The stub macro for `Tcl_WinUtfToTChar` (lines 107-110 of
`tclPlatDecls.h`): an indirect call through slot 0 of the table
`tclPlatStubsPtr` points to.  The call reads the slot and applies it when
non-null; the table is returned alongside the result so that the claim
that dispatch never writes the table is statable. -/
def stubWinUtfToTChar (t : TclPlatStubsWin) (str : CStr) (len : Int)
    (dsPtr : DStringRef) : Option TCharStr × TclPlatStubsWin :=
  (t.tcl_WinUtfToTChar.map (fun f => f str len dsPtr), t)

/-- The stub macro for `Tcl_WinTCharToUtf` (lines 111-114): an indirect
call through slot 1 of the Windows table. -/
def stubWinTCharToUtf (t : TclPlatStubsWin) (str : TCharStr) (len : Int)
    (dsPtr : DStringRef) : Option CStr × TclPlatStubsWin :=
  (t.tcl_WinTCharToUtf.map (fun f => f str len dsPtr), t)

/-- The stub macro for `Tcl_MacOSXOpenBundleResources` (lines 117-120): an
indirect call through slot 0 of the macOS table. -/
def stubMacOpenBundle (t : TclPlatStubsMac) (interp : InterpRef)
    (bundleName : CStr) (hasResourceFile maxPathLen : Int)
    (libraryPath : CStr) : Option Int × TclPlatStubsMac :=
  (t.tcl_MacOSXOpenBundleResources.map
    (fun f => f interp bundleName hasResourceFile maxPathLen libraryPath), t)

/-- The stub macro for `Tcl_MacOSXOpenVersionedBundleResources`
(lines 121-124): an indirect call through slot 1 of the macOS table. -/
def stubMacOpenVersionedBundle (t : TclPlatStubsMac) (interp : InterpRef)
    (bundleName bundleVersion : CStr) (hasResourceFile maxPathLen : Int)
    (libraryPath : CStr) : Option Int × TclPlatStubsMac :=
  (t.tcl_MacOSXOpenVersionedBundleResources.map
    (fun f => f interp bundleName bundleVersion hasResourceFile maxPathLen
      libraryPath), t)

/-- The library's actual implementations of the four platform-specific
functions, as an abstract bundle: the functions a directly linked build
(no `USE_TCL_STUBS`) calls. -/
structure PlatImpls : Type where
  tcl_WinUtfToTChar : WinUtfToTCharSig
  tcl_WinTCharToUtf : WinTCharToUtfSig
  tcl_MacOSXOpenBundleResources : MacOpenBundleSig
  tcl_MacOSXOpenVersionedBundleResources : MacOpenVersionedBundleSig

/-- Modelled from the spec: the Windows stub table as set once at link or
load time (`tclPlatStubsPtr`), each slot pointing at the library's
implementation of the function at that ordinal; the initializer itself is
not part of this material. -/
def loadedWinTable (impl : PlatImpls) (magic : Int) (hooks : Option Nat) :
    TclPlatStubsWin :=
  { magic := magic
    hooks := hooks
    tcl_WinUtfToTChar := some impl.tcl_WinUtfToTChar
    tcl_WinTCharToUtf := some impl.tcl_WinTCharToUtf }

/-- Modelled from the spec: the macOS stub table as set once at link or
load time, each slot pointing at the library's implementation of the
function at that ordinal. -/
def loadedMacTable (impl : PlatImpls) (magic : Int) (hooks : Option Nat) :
    TclPlatStubsMac :=
  { magic := magic
    hooks := hooks
    tcl_MacOSXOpenBundleResources := some impl.tcl_MacOSXOpenBundleResources
    tcl_MacOSXOpenVersionedBundleResources :=
      some impl.tcl_MacOSXOpenVersionedBundleResources }

example :
    Tcl_AppInit ⟨false, false, false⟩ ⟨0, 0, 0, 0, 0, 0⟩ =
      (TCL_OK, [Event.callInit "Tcl_Init",
                Event.setVar "tcl_rcFileName" "~/.tclshrc"]) := by
  decide

example :
    Tcl_AppInit ⟨true, false, false⟩ ⟨0, 0, 1, 0, 0, 0⟩ =
      (TCL_ERROR, [Event.callInit "Tcl_Init",
                   Event.callInit "Tcltest_Init"]) := by
  decide

example :
    Tcl_AppInit ⟨true, true, true⟩ ⟨0, 0, 0, 0, 0, 7⟩ =
      (TCL_OK, [Event.callInit "Tcl_Init",
                Event.callInit "Tclxttest_Init",
                Event.callInit "Tcltest_Init",
                Event.staticPackage "Tcltest",
                Event.callInit "TclObjTest_Init",
                Event.callInit "Procbodytest_Init",
                Event.staticPackage "procbodytest",
                Event.setVar "tcl_rcFileName" "~/tclsh.rc"]) := by
  decide

/-- Master characterization: `Tcl_AppInit` returns `TCL_OK` exactly when the
run of the fixed step sequence succeeds, and its trace is exactly the trace
the specification describes (`claimedTrace`). -/
theorem appInit_eq_claimed (cfg : Config) (env : InitResults) :
    Tcl_AppInit cfg env =
      (if (runSteps env (stepsFor cfg)).2 then TCL_OK else TCL_ERROR,
       claimedTrace cfg env) := by
  rcases cfg with ⟨t, x, d⟩
  cases t <;> cases x <;>
    simp only [Tcl_AppInit, appInitTestRest, appInitTail, claimedTrace,
      stepsFor, runSteps, initResult, rcFileName, Bool.false_eq_true,
      if_false, if_true, List.append_nil, List.nil_append, List.cons_append,
      List.singleton_append] <;>
    split_ifs <;> simp_all

/-- The names of the steps of `stepsFor` are exactly `initSeqNames`. -/
theorem stepsFor_names (cfg : Config) :
    (stepsFor cfg).map Prod.fst = initSeqNames cfg := by
  rcases cfg with ⟨t, x, d⟩
  cases t <;> cases x <;> rfl

/-- A step-sequence run succeeds exactly when no routine in it reports
`TCL_ERROR`. -/
theorem runSteps_flag (env : InitResults) (L : List (String × List Event)) :
    (runSteps env L).2 = true ↔
      ∀ n ∈ L.map Prod.fst, initResult env n ≠ TCL_ERROR := by
  induction L with
  | nil => simp [runSteps]
  | cons p rest ih =>
    rcases p with ⟨n, post⟩
    by_cases h : initResult env n = TCL_ERROR <;>
      simp_all [runSteps]

/-- `callsOf` distributes over trace concatenation. -/
theorem callsOf_append (a b : List Event) :
    callsOf (a ++ b) = callsOf a ++ callsOf b := by
  simp [callsOf, List.filterMap_append]

/-- `callsOf` of a trace starting with an init call. -/
theorem callsOf_cons_callInit (n : String) (tr : List Event) :
    callsOf (Event.callInit n :: tr) = n :: callsOf tr := by
  simp [callsOf]

/-- `Tcl_StaticPackage` registrations are not init calls. -/
theorem callsOf_cons_staticPackage (p : String) (tr : List Event) :
    callsOf (Event.staticPackage p :: tr) = callsOf tr := by
  simp [callsOf]

/-- `Tcl_SetVar` calls are not init calls. -/
theorem callsOf_cons_setVar (n v : String) (tr : List Event) :
    callsOf (Event.setVar n v :: tr) = callsOf tr := by
  simp [callsOf]

/-- The init calls a step-sequence run performs are exactly the step names
up to and including the first failing one (all of them when none fails,
since then `findIdx` is the length of the list). -/
theorem callsOf_runSteps (env : InitResults) (L : List (String × List Event))
    (hpost : ∀ p ∈ L, callsOf p.2 = []) :
    callsOf (runSteps env L).1 =
      (L.map Prod.fst).take
        ((L.map Prod.fst).findIdx
          (fun n => initResult env n == TCL_ERROR) + 1) := by
  induction L with
  | nil => simp [runSteps, callsOf]
  | cons p rest ih =>
    rcases p with ⟨n, post⟩
    have hp : callsOf post = [] := hpost ⟨n, post⟩ (by simp)
    have hr : ∀ p ∈ rest, callsOf p.2 = [] := fun p hm => hpost p (by simp [hm])
    by_cases h : initResult env n = TCL_ERROR
    · simp [runSteps, h, callsOf, List.findIdx_cons]
    · have hb : (initResult env n == TCL_ERROR) = false := by
        simp [beq_eq_false_iff_ne, h]
      simp [runSteps, h, List.findIdx_cons, callsOf_append, hp, ih hr,
        callsOf_cons_callInit, hb]

/-- A step-sequence run performs no `Tcl_SetVar` call, provided no step
registration does. -/
theorem filter_setVar_runSteps (env : InitResults)
    (L : List (String × List Event))
    (hpost : ∀ p ∈ L, p.2.filter isSetVar = []) :
    (runSteps env L).1.filter isSetVar = [] := by
  induction L with
  | nil => simp [runSteps]
  | cons p rest ih =>
    rcases p with ⟨n, post⟩
    have hp : post.filter isSetVar = [] := hpost ⟨n, post⟩ (by simp)
    have hr : ∀ p ∈ rest, p.2.filter isSetVar = [] :=
      fun p hm => hpost p (by simp [hm])
    by_cases h : initResult env n = TCL_ERROR <;>
      simp_all [runSteps, isSetVar, List.filter_append]

/-- The step registrations of `Tcl_AppInit` contain no init call. -/
theorem stepsFor_posts_callsOf (cfg : Config) :
    ∀ p ∈ stepsFor cfg, callsOf p.2 = [] := by
  rcases cfg with ⟨t, x, d⟩
  cases t <;> cases x <;> simp [stepsFor, callsOf]

/-- The step registrations of `Tcl_AppInit` contain no `Tcl_SetVar` call. -/
theorem stepsFor_posts_filter (cfg : Config) :
    ∀ p ∈ stepsFor cfg, p.2.filter isSetVar = [] := by
  rcases cfg with ⟨t, x, d⟩
  cases t <;> cases x <;> simp [stepsFor, isSetVar]

/-- C1: if any initialization step invoked by `Tcl_AppInit` returns
`TCL_ERROR`, then `Tcl_AppInit` returns `TCL_ERROR` immediately: the init
calls it performs are exactly the fixed sequence up to and including the
first failing one (none of the later steps run), and it performs no
`Tcl_SetVar` call, so the configuration variable is never set; there is no
retry and no recovery. -/
theorem Tcl_AppInit_error_short_circuits (cfg : Config) (env : InitResults)
    (h : ∃ n ∈ initSeqNames cfg, initResult env n = TCL_ERROR) :
    (Tcl_AppInit cfg env).1 = TCL_ERROR ∧
    callsOf (Tcl_AppInit cfg env).2 =
      (initSeqNames cfg).take
        ((initSeqNames cfg).findIdx
          (fun n => initResult env n == TCL_ERROR) + 1) ∧
    (Tcl_AppInit cfg env).2.filter isSetVar = [] := by
  have hflag : (runSteps env (stepsFor cfg)).2 = false := by
    cases hb : (runSteps env (stepsFor cfg)).2
    · rfl
    · rcases h with ⟨n, hn, he⟩
      exact absurd he
        ((runSteps_flag env (stepsFor cfg)).1 hb n
          (by rw [stepsFor_names]; exact hn))
  rw [appInit_eq_claimed]
  refine ⟨by simp [hflag], ?_, ?_⟩
  · simp only [claimedTrace, hflag, Bool.false_eq_true, if_false,
      List.append_nil]
    rw [callsOf_runSteps env _ (stepsFor_posts_callsOf cfg), stepsFor_names]
  · simp only [claimedTrace, hflag, Bool.false_eq_true, if_false,
      List.append_nil]
    exact filter_setVar_runSteps env _ (stepsFor_posts_filter cfg)

/-- Witness for C1: in a `TCL_TEST` build where `Tcltest_Init` fails,
`Tcl_AppInit` returns `TCL_ERROR`, calls only `Tcl_Init` and
`Tcltest_Init`, and never sets `tcl_rcFileName`. -/
theorem Tcl_AppInit_error_short_circuits_witness :
    (∃ n ∈ initSeqNames ⟨true, false, false⟩,
      initResult ⟨0, 0, 1, 0, 0, 0⟩ n = TCL_ERROR) ∧
    (Tcl_AppInit ⟨true, false, false⟩ ⟨0, 0, 1, 0, 0, 0⟩).1 = TCL_ERROR ∧
    callsOf (Tcl_AppInit ⟨true, false, false⟩ ⟨0, 0, 1, 0, 0, 0⟩).2 =
      (initSeqNames ⟨true, false, false⟩).take
        ((initSeqNames ⟨true, false, false⟩).findIdx
          (fun n => initResult ⟨0, 0, 1, 0, 0, 0⟩ n == TCL_ERROR) + 1) ∧
    (Tcl_AppInit ⟨true, false, false⟩ ⟨0, 0, 1, 0, 0, 0⟩).2.filter isSetVar =
      [] :=
  ⟨by decide, Tcl_AppInit_error_short_circuits ⟨true, false, false⟩
    ⟨0, 0, 1, 0, 0, 0⟩ (by decide)⟩

/-- C2: `Tcl_AppInit` returns `TCL_ERROR` if and only if one of the
package-initialization routines it forwards to (`Tcl_Init`, and in test
builds the test-package init routines) returns `TCL_ERROR`; no other
condition makes it fail. -/
theorem Tcl_AppInit_error_iff_some_init_fails (cfg : Config)
    (env : InitResults) :
    (Tcl_AppInit cfg env).1 = TCL_ERROR ↔
      ∃ n ∈ initSeqNames cfg, initResult env n = TCL_ERROR := by
  rw [appInit_eq_claimed]
  cases hb : (runSteps env (stepsFor cfg)).2 with
  | false =>
    simp only [Bool.false_eq_true, if_false]
    constructor
    · intro _
      by_contra hno
      push_neg at hno
      have ht := (runSteps_flag env (stepsFor cfg)).2
        (by rw [stepsFor_names]; exact hno)
      rw [hb] at ht
      exact Bool.false_ne_true ht
    · intro _
      trivial
  | true =>
    simp only [if_true]
    have hall := (runSteps_flag env (stepsFor cfg)).1 hb
    rw [stepsFor_names] at hall
    constructor
    · intro hok
      exact absurd hok (by decide)
    · rintro ⟨n, hn, he⟩
      exact absurd he (hall n hn)

/-- C3: when every initialization routine invoked by `Tcl_AppInit`
succeeds, `Tcl_AppInit` performs exactly one `Tcl_SetVar` call, on
`tcl_rcFileName`, as its final action, and returns `TCL_OK`. -/
theorem Tcl_AppInit_success_sets_rcFileName (cfg : Config)
    (env : InitResults)
    (h : ∀ n ∈ initSeqNames cfg, initResult env n ≠ TCL_ERROR) :
    (Tcl_AppInit cfg env).1 = TCL_OK ∧
    (Tcl_AppInit cfg env).2.filter isSetVar =
      [Event.setVar "tcl_rcFileName" (rcFileName cfg)] ∧
    (Tcl_AppInit cfg env).2.getLast? =
      some (Event.setVar "tcl_rcFileName" (rcFileName cfg)) := by
  have hflag : (runSteps env (stepsFor cfg)).2 = true :=
    (runSteps_flag env (stepsFor cfg)).2 (by rw [stepsFor_names]; exact h)
  rw [appInit_eq_claimed]
  refine ⟨by simp [hflag], ?_, ?_⟩
  · simp [claimedTrace, hflag, List.filter_append,
      filter_setVar_runSteps env _ (stepsFor_posts_filter cfg), isSetVar]
  · simp [claimedTrace, hflag]

/-- Witness for C3: in an all-succeeding `TCL_TEST`/`TCL_XT_TEST` build
`Tcl_AppInit` sets exactly `tcl_rcFileName` as its last action and returns
`TCL_OK`. -/
theorem Tcl_AppInit_success_sets_rcFileName_witness :
    (∀ n ∈ initSeqNames ⟨true, true, false⟩,
      initResult ⟨0, 0, 0, 0, 0, 0⟩ n ≠ TCL_ERROR) ∧
    (Tcl_AppInit ⟨true, true, false⟩ ⟨0, 0, 0, 0, 0, 0⟩).1 = TCL_OK ∧
    (Tcl_AppInit ⟨true, true, false⟩ ⟨0, 0, 0, 0, 0, 0⟩).2.filter isSetVar =
      [Event.setVar "tcl_rcFileName" (rcFileName ⟨true, true, false⟩)] ∧
    (Tcl_AppInit ⟨true, true, false⟩ ⟨0, 0, 0, 0, 0, 0⟩).2.getLast? =
      some (Event.setVar "tcl_rcFileName" (rcFileName ⟨true, true, false⟩)) :=
  ⟨by decide, Tcl_AppInit_success_sets_rcFileName ⟨true, true, false⟩
    ⟨0, 0, 0, 0, 0, 0⟩ (by decide)⟩

/-- C4: in the default configuration (no `TCL_LOCAL_MAIN_HOOK`, no
`TCL_LOCAL_APPINIT`), `main` passes `argc`, `argv` and the `Tcl_AppInit`
callback unchanged to `Tcl_Main`, performs no other argument handling (its
trace contains nothing but the optional toolkit call and that single
forwarding call), and its own result does not depend on the arguments. -/
theorem main_forwards_args_unchanged (env : MainEnv) (argc : Nat)
    (argv : List String) (xt : Bool) :
    (TclShell.main ⟨xt, false, none⟩ env argc argv).2 =
      (if xt then [MainEvent.xtToolkitInitCall] else []) ++
        [MainEvent.tclMainCall argc argv "Tcl_AppInit"] ∧
    (TclShell.main ⟨xt, false, none⟩ env argc argv).1 =
      (TclShell.main ⟨xt, false, none⟩ env 0 []).1 := by
  cases xt <;> cases hb : env.tclMainReturns <;>
    simp [TclShell.main, hb]

/-- C5: when `Tcl_Main` does not return (normal operation), control never
reaches the final `return 0` of `main`, so `main` itself never returns
(its result is `none`). -/
theorem main_never_returns_when_tclMain_does_not (cfg : MainConfig)
    (env : MainEnv) (argc : Nat) (argv : List String)
    (h : env.tclMainReturns = false) :
    (TclShell.main cfg env argc argv).1 = none := by
  simp [TclShell.main, h]

/-- Witness for C5: with a non-returning `Tcl_Main`, `main` never
returns. -/
theorem main_never_returns_when_tclMain_does_not_witness :
    (⟨fun a v => (a, v), false⟩ : MainEnv).tclMainReturns = false ∧
    (TclShell.main ⟨false, false, none⟩ ⟨fun a v => (a, v), false⟩ 1
      ["tclsh"]).1 = none :=
  ⟨rfl, main_never_returns_when_tclMain_does_not ⟨false, false, none⟩
    ⟨fun a v => (a, v), false⟩ 1 ["tclsh"] rfl⟩

/-- C6: `Tcl_AppInit` runs exactly the fixed, statically known step
sequence `stepsFor` in order (`Tcl_Init`; in test builds `Tclxttest_Init`
under `TCL_XT_TEST`, then `Tcltest_Init`, `TclObjTest_Init`,
`Procbodytest_Init`), short-circuiting at the first failure, with each
`Tcl_StaticPackage` registration emitted by `runSteps` only after the
corresponding init routine succeeded: its result and trace coincide with
running that sequence. -/
theorem Tcl_AppInit_matches_claimedTrace (cfg : Config) (env : InitResults) :
    Tcl_AppInit cfg env =
      (if (runSteps env (stepsFor cfg)).2 then TCL_OK else TCL_ERROR,
       claimedTrace cfg env) :=
  appInit_eq_claimed cfg env

/-- C7: each slot of the platform stub table (both the Windows and the
macOS preprocessing of `TclPlatStubs`) is either null or holds an
implementation with the signature of the function at that ordinal, and
none of the operations this material defines on the table (the stub-macro
dispatches) ever writes it: each dispatch returns the table unchanged. -/
theorem platStubs_slots_valid_and_readonly (tw : TclPlatStubsWin)
    (tm : TclPlatStubsMac) (s : CStr) (ts : TCharStr) (len : Int)
    (ds : DStringRef) (ip : InterpRef) (bn bv lp : CStr) (hrf mpl : Int) :
    (stubWinUtfToTChar tw s len ds).2 = tw ∧
    (stubWinTCharToUtf tw ts len ds).2 = tw ∧
    (stubMacOpenBundle tm ip bn hrf mpl lp).2 = tm ∧
    (stubMacOpenVersionedBundle tm ip bn bv hrf mpl lp).2 = tm ∧
    (tw.tcl_WinUtfToTChar = none ∨
      ∃ f : WinUtfToTCharSig, tw.tcl_WinUtfToTChar = some f) ∧
    (tw.tcl_WinTCharToUtf = none ∨
      ∃ f : WinTCharToUtfSig, tw.tcl_WinTCharToUtf = some f) ∧
    (tm.tcl_MacOSXOpenBundleResources = none ∨
      ∃ f : MacOpenBundleSig, tm.tcl_MacOSXOpenBundleResources = some f) ∧
    (tm.tcl_MacOSXOpenVersionedBundleResources = none ∨
      ∃ f : MacOpenVersionedBundleSig,
        tm.tcl_MacOSXOpenVersionedBundleResources = some f) :=
  ⟨rfl, rfl, rfl, rfl, Option.eq_none_or_eq_some _,
    Option.eq_none_or_eq_some _, Option.eq_none_or_eq_some _,
    Option.eq_none_or_eq_some _⟩

/-- C8: with stub indirection enabled, a call to each of the four
platform-specific functions through the stub macro — an indirect call
through the corresponding slot of the table `tclPlatStubsPtr` points to —
computes the same result as the directly linked implementation, for the
table as set at load time. -/
theorem stub_dispatch_eq_direct_call (impl : PlatImpls) (magic : Int)
    (hooks : Option Nat) (s : CStr) (ts : TCharStr) (len : Int)
    (ds : DStringRef) (ip : InterpRef) (bn bv lp : CStr) (hrf mpl : Int) :
    (stubWinUtfToTChar (loadedWinTable impl magic hooks) s len ds).1 =
      some (impl.tcl_WinUtfToTChar s len ds) ∧
    (stubWinTCharToUtf (loadedWinTable impl magic hooks) ts len ds).1 =
      some (impl.tcl_WinTCharToUtf ts len ds) ∧
    (stubMacOpenBundle (loadedMacTable impl magic hooks) ip bn hrf mpl
        lp).1 =
      some (impl.tcl_MacOSXOpenBundleResources ip bn hrf mpl lp) ∧
    (stubMacOpenVersionedBundle (loadedMacTable impl magic hooks) ip bn bv
        hrf mpl lp).1 =
      some (impl.tcl_MacOSXOpenVersionedBundleResources ip bn bv hrf mpl
        lp) :=
  ⟨rfl, rfl, rfl, rfl⟩

/-- C9: if `Tcl_Main` does return, `main` reaches its final
`return 0` and returns exit status 0 unconditionally, whatever the
arguments and configuration: the exit status never reflects any
failure. -/
theorem main_returns_zero_when_tclMain_returns (cfg : MainConfig)
    (env : MainEnv) (argc : Nat) (argv : List String)
    (h : env.tclMainReturns = true) :
    (TclShell.main cfg env argc argv).1 = some 0 := by
  simp [TclShell.main, h]

/-- Witness for C9: with a returning `Tcl_Main`, `main` returns 0. -/
theorem main_returns_zero_when_tclMain_returns_witness :
    (⟨fun a v => (a, v), true⟩ : MainEnv).tclMainReturns = true ∧
    (TclShell.main ⟨false, false, none⟩ ⟨fun a v => (a, v), true⟩ 2
      ["tclsh", "script.tcl"]).1 = some 0 :=
  ⟨rfl, main_returns_zero_when_tclMain_returns ⟨false, false, none⟩
    ⟨fun a v => (a, v), true⟩ 2 ["tclsh", "script.tcl"] rfl⟩

/-- C10: `Tcl_AppInit` discards the status `Tcl_SetVar` returns: its
result is entirely independent of that status, and when every init
routine succeeds it returns `TCL_OK` even if the `Tcl_SetVar` call
fails. -/
theorem Tcl_AppInit_ignores_setVar_status (cfg : Config) (env : InitResults)
    (v : Nat)
    (h : ∀ n ∈ initSeqNames cfg, initResult env n ≠ TCL_ERROR) :
    Tcl_AppInit cfg { env with tcl_SetVar := v } = Tcl_AppInit cfg env ∧
    (Tcl_AppInit cfg { env with tcl_SetVar := v }).1 = TCL_OK := by
  have hflag : (runSteps env (stepsFor cfg)).2 = true :=
    (runSteps_flag env (stepsFor cfg)).2 (by rw [stepsFor_names]; exact h)
  refine ⟨rfl, ?_⟩
  have heq : Tcl_AppInit cfg { env with tcl_SetVar := v } =
      Tcl_AppInit cfg env := rfl
  rw [heq, appInit_eq_claimed]
  simp [hflag]

/-- Witness for C10: with `Tcl_SetVar` reporting `TCL_ERROR` (status 1),
`Tcl_AppInit` still returns `TCL_OK`. -/
theorem Tcl_AppInit_ignores_setVar_status_witness :
    (∀ n ∈ initSeqNames ⟨false, false, false⟩,
      initResult ⟨0, 0, 0, 0, 0, 9⟩ n ≠ TCL_ERROR) ∧
    (Tcl_AppInit ⟨false, false, false⟩
        { (⟨0, 0, 0, 0, 0, 9⟩ : InitResults) with tcl_SetVar := 1 } =
      Tcl_AppInit ⟨false, false, false⟩ ⟨0, 0, 0, 0, 0, 9⟩ ∧
    (Tcl_AppInit ⟨false, false, false⟩
        { (⟨0, 0, 0, 0, 0, 9⟩ : InitResults) with tcl_SetVar := 1 }).1 =
      TCL_OK) :=
  ⟨by decide, Tcl_AppInit_ignores_setVar_status ⟨false, false, false⟩
    ⟨0, 0, 0, 0, 0, 9⟩ 1 (by decide)⟩
